import Mathlib

/-!
Shallow embedding of `generate_assets.py`, a one-shot asset-generation
script that renders Xiangqi piece textures with PIL and writes PNG files.

Modelling conventions:
* PIL images are modelled syntactically: an `Img` records how the image
  was constructed (`Image.new`, draw operations, `resize`).  The byte
  content of a saved PNG is a deterministic function of this construction,
  so equality of `Img` values models byte-equivalence of the saved files.
* The filesystem and the font-measuring behaviour of PIL are an
  environment `Env`: which paths exist, whether `ImageFont.truetype`
  loads a given file, and what `draw.textbbox` returns for a text/font.
* Python float arithmetic in the renderer is modelled over `ℚ`
  (the literal `0.1` becomes `1/10`).
* `create_board_image` calls itself unconditionally after saving the
  board image (the call and the pixel-image statements are indented
  inside its own body), so it is modelled with explicit fuel: the fuel
  version returns `none` when no finite recursion depth lets the call
  return, and a separate trace function records the writes performed
  before the recursion diverges.
-/

namespace GenerateAssets

/-- An RGBA colour tuple, as passed to `Image.new`. -/
structure RGBA where
  r : Nat
  g : Nat
  b : Nat
  a : Nat
deriving DecidableEq, Repr

/-- A font handle: `ImageFont.truetype path size`, or the built-in
`ImageFont.load_default()`. -/
inductive Font where
  | truetype (path : String) (size : Nat)
  | default
deriving DecidableEq, Repr

/-- The bounding box returned by `draw.textbbox((0, 0), text, font=font)`. -/
structure BBox where
  left : Int
  top : Int
  right : Int
  bottom : Int
deriving DecidableEq, Repr

/-- A drawing operation performed on an image. -/
inductive DrawOp where
  | ellipse (x0 y0 x1 y1 : Int) (fill outline : String) (width : Int)
  | text (x y : ℚ) (txt : String) (font : Font) (fill : String)
deriving DecidableEq, Repr

/-- A PIL image, modelled by its construction history. -/
inductive Img where
  | new (width height : Nat) (color : RGBA)
  | withOp (base : Img) (op : DrawOp)
  | resize (base : Img) (width height : Nat) (filter : String)
deriving DecidableEq, Repr

/-- The pixel dimensions of an image. -/
def Img.size : Img → Nat × Nat
  | .new w h _ => (w, h)
  | .withOp b _ => b.size
  | .resize _ w h _ => (w, h)

/-- The draw operations applied to an image, in order. -/
def Img.opList : Img → List DrawOp
  | .new _ _ _ => []
  | .withOp b op => b.opList ++ [op]
  | .resize b _ _ _ => b.opList

/-- The blank canvas an image was started from (`Image.new`). -/
def Img.canvas : Img → Img
  | .new w h c => .new w h c
  | .withOp b _ => b.canvas
  | .resize b _ _ _ => b.canvas

/-- The ambient behaviour of the filesystem and of PIL:
which paths exist, whether `ImageFont.truetype` succeeds on a path and
point size, and what `draw.textbbox` returns for a text and font. -/
structure Env where
  pathExists : String → Bool
  truetypeLoads : String → Nat → Bool
  textbbox : String → Font → BBox

/-- `create_piece_image`, generalised over the supersampling factor
(the source fixes `scale_factor = 4`; `create_piece_image` below
instantiates it).  Returns the saved file: its path and image. -/
def create_piece_image_scaled (env : Env) (scale_factor : Nat)
    (filename text text_color bg_color : String) (font : Font) :
    String × Img :=
  let target_size : Nat := 128
  let size : Nat × Nat := (target_size * scale_factor, target_size * scale_factor)
  let img : Img := Img.new size.1 size.2 ⟨0, 0, 0, 0⟩
  let border_width : Nat := 4 * scale_factor
  let img : Img := img.withOp
    (DrawOp.ellipse border_width border_width
      ((size.1 : Int) - border_width) ((size.2 : Int) - border_width)
      bg_color text_color border_width)
  let bbox : BBox := env.textbbox text font
  let text_width : Int := bbox.right - bbox.left
  let text_height : Int := bbox.bottom - bbox.top
  let x : ℚ := ((size.1 : ℚ) - (text_width : ℚ)) / 2
  let y : ℚ := ((size.2 : ℚ) - (text_height : ℚ)) / 2
  let y : ℚ := y - (text_height : ℚ) * (1 / 10)
  let img : Img := img.withOp (DrawOp.text x y text font text_color)
  let img : Img := img.resize target_size target_size "LANCZOS"
  (filename, img)

/-- `create_piece_image(filename, text, text_color, bg_color, font)` from
the source, with its hard-coded `scale_factor = 4`. -/
def create_piece_image (env : Env)
    (filename text text_color bg_color : String) (font : Font) :
    String × Img :=
  create_piece_image_scaled env 4 filename text text_color bg_color font

/-- The `pieces_map` dictionary: piece name to (red character, black
character), in insertion order. -/
def pieces_map : List (String × String × String) :=
  [("General", "帥", "將"),
   ("Advisor", "仕", "士"),
   ("Elephant", "相", "象"),
   ("Horse", "傌", "馬"),
   ("Chariot", "俥", "車"),
   ("Cannon", "炮", "砲"),
   ("Soldier", "兵", "卒")]

/-- `colors["red"]["text"]`. -/
def red_text_color : String := "#8B0000"

/-- `colors["red"]["bg"]`. -/
def red_bg_color : String := "#F0D9B5"

/-- `colors["black"]["text"]`. -/
def black_text_color : String := "#000000"

/-- `colors["black"]["bg"]`. -/
def black_bg_color : String := "#F0D9B5"

/-- The hard-coded ordered list of candidate font paths. -/
def font_paths : List String :=
  ["/usr/share/fonts/google-droid-sans-fonts/DroidSansFallbackFull.ttf",
   "/usr/share/fonts/truetype/arphic/uming.ttc",
   "/usr/share/fonts/opentype/noto/NotoSansCJK-Regular.ttc",
   "/usr/share/fonts/noto-cjk/NotoSansCJK-Regular.ttc",
   "DroidSansFallbackFull.ttf"]

/-- The probe loop `for path in font_paths: if os.path.exists(path):
font_path = path; break` — the first path the predicate accepts. -/
def firstExisting (ex : String → Bool) : List String → Option String
  | [] => none
  | p :: rest => if ex p then some p else firstExisting ex rest

/-- Messages the font-resolution block prints to standard output. -/
inductive FontMsg where
  | usingFont (path : String)
  | warnNoFont
  | warnLoadFailed
deriving DecidableEq, Repr

/-- The font-resolution block (lines 56-84 of the source): probe the
candidate paths, bind the first existing one at point size 280, fall back
to the default font with a warning when none exists, and fall back to the
default font when `ImageFont.truetype` raises (the `except` branch). -/
def resolve_font (env : Env) : Font × List FontMsg :=
  match firstExisting env.pathExists font_paths with
  | some path =>
      if env.truetypeLoads path 280 then
        (Font.truetype path 280, [FontMsg.usingFont path])
      else
        (Font.default, [FontMsg.usingFont path, FontMsg.warnLoadFailed])
  | none => (Font.default, [FontMsg.warnNoFont])

/-- Python `str.lower()` on the ASCII piece names. -/
def pyLower (s : String) : String := String.mk (s.data.map Char.toLower)

/-- The files written by one complete top-level run of the script: the
font is resolved once, then for each entry of `pieces_map` the red piece
image and the black piece image are generated.  The script defines
`create_board_image` after this loop but never calls it (the would-be
call is indented inside the function's own body), so no other file is
written. -/
def run_script (env : Env) : List (String × Img) :=
  let font : Font := (resolve_font env).1
  pieces_map.flatMap (fun pc =>
    [create_piece_image env ("assets/textures/red_" ++ pyLower pc.1 ++ ".png")
       pc.2.1 red_text_color red_bg_color font,
     create_piece_image env ("assets/textures/black_" ++ pyLower pc.1 ++ ".png")
       pc.2.2 black_text_color black_bg_color font])

/-- The burlywood board colour. -/
def board_color : RGBA := ⟨222, 184, 135, 255⟩

/-- The 1024x1024 flat board image. -/
def board_img : Img := Img.new 1024 1024 board_color

/-- The 1x1 white pixel image. -/
def pixel_img : Img := Img.new 1 1 ⟨255, 255, 255, 255⟩

/-- `create_board_image()` with explicit recursion fuel.  The body saves
`board.png`, then unconditionally calls itself, and only afterwards would
save `pixel.png`.  `none` means the given recursion depth did not let the
call return; `some writes` would be the writes of a returning call. -/
def create_board_image : Nat → Option (List (String × Img))
  | 0 => none
  | fuel + 1 =>
      match create_board_image fuel with
      | none => none
      | some rest =>
          some (("assets/textures/board.png", board_img) :: rest ++
            [("assets/textures/pixel.png", pixel_img)])

/-- The writes `create_board_image()` performs before the self-call
diverges, at a given recursion depth: each level saves `board.png` and
then recurses, never reaching the `pixel.png` statements. -/
def create_board_image_trace : Nat → List (String × Img)
  | 0 => []
  | fuel + 1 =>
      ("assets/textures/board.png", board_img) :: create_board_image_trace fuel

/-! ### Helper lemmas -/

/-- The probe loop returns `none` when no candidate path exists. -/
theorem firstExisting_all_false (ex : String → Bool) (l : List String)
    (h : ∀ p ∈ l, ex p = false) : firstExisting ex l = none := by
  induction l with
  | nil => rfl
  | cons p rest ih =>
      simp only [firstExisting]
      rw [h p (by simp)]
      simp only [Bool.false_eq_true, if_false]
      exact ih (fun q hq => h q (by simp [hq]))

/-- The probe loop returns the first accepted element of the list. -/
theorem firstExisting_append (ex : String → Bool) (pre : List String) (p : String)
    (post : List String) (hpre : ∀ q ∈ pre, ex q = false) (hp : ex p = true) :
    firstExisting ex (pre ++ p :: post) = some p := by
  induction pre with
  | nil => simp [firstExisting, hp]
  | cons q rest ih =>
      simp only [List.cons_append, firstExisting]
      rw [hpre q (by simp)]
      simp only [Bool.false_eq_true, if_false]
      exact ih (fun r hr => hpre r (by simp [hr]))

/-- The saved piece image always has size 128x128, for any supersampling
factor. -/
theorem create_piece_image_scaled_size (env : Env) (sf : Nat)
    (filename text tc bg : String) (font : Font) :
    ((create_piece_image_scaled env sf filename text tc bg font).2).size = (128, 128) :=
  rfl

/-- `create_board_image` does not return at any recursion depth. -/
theorem create_board_image_eq_none (fuel : Nat) : create_board_image fuel = none := by
  induction fuel with
  | zero => rfl
  | succ n ih => simp [create_board_image, ih]

/-- Every write `create_board_image` performs is a write of `board.png`:
the `pixel.png` statements after the self-call are never reached. -/
theorem create_board_image_trace_names (fuel : Nat) :
    (create_board_image_trace fuel).map Prod.fst =
      List.replicate fuel "assets/textures/board.png" := by
  induction fuel with
  | zero => rfl
  | succ n ih => simp [create_board_image_trace, ih, List.replicate_succ]

/-- The piece renderer depends on the environment only through
`draw.textbbox`. -/
theorem create_piece_image_congr (env1 env2 : Env)
    (h : env1.textbbox = env2.textbbox) (filename text tc bg : String) (font : Font) :
    create_piece_image env1 filename text tc bg font =
      create_piece_image env2 filename text tc bg font := by
  simp [create_piece_image, create_piece_image_scaled, h]

/-! ### Witness environments -/

/-- An environment in which no candidate font path exists. -/
def envNoPaths : Env :=
  ⟨fun _ => false, fun _ _ => true, fun _ _ => ⟨0, 0, 0, 0⟩⟩

/-- An environment in which exactly the second candidate font path
exists. -/
def envOnlySecond : Env :=
  ⟨fun s => s == "/usr/share/fonts/truetype/arphic/uming.ttc",
   fun _ _ => true, fun _ _ => ⟨0, 0, 0, 0⟩⟩

/-! ### Claim theorems -/

/-- C1: evaluation of the script at the failing input.  A complete run
writes exactly fourteen piece files, one per (side, piece-name) pair,
named `\x7bside\x7d_\x7bpieceNameLowercased\x7d.png` — but it writes
neither the flat-color board image nor the solid pixel image, because
the script never calls `create_board_image` (the would-be invocation is
indented inside the function's own body), contradicting the claim. -/
theorem C1_run_writes_pieces_but_no_board (env : Env) :
    (run_script env).map Prod.fst =
      ["assets/textures/red_general.png", "assets/textures/black_general.png",
       "assets/textures/red_advisor.png", "assets/textures/black_advisor.png",
       "assets/textures/red_elephant.png", "assets/textures/black_elephant.png",
       "assets/textures/red_horse.png", "assets/textures/black_horse.png",
       "assets/textures/red_chariot.png", "assets/textures/black_chariot.png",
       "assets/textures/red_cannon.png", "assets/textures/black_cannon.png",
       "assets/textures/red_soldier.png", "assets/textures/black_soldier.png"] ∧
    ((run_script env).map Prod.fst).count "assets/textures/board.png" = 0 ∧
    ((run_script env).map Prod.fst).count "assets/textures/pixel.png" = 0 :=
  ⟨rfl, rfl, rfl⟩

/-- C2: when none of the candidate font paths exists, font resolution
returns the built-in default font and emits the warning message, and
every subsequent render call still produces a saved image of size
128x128. -/
theorem C2_default_font_fallback (env : Env)
    (h : ∀ p ∈ font_paths, env.pathExists p = false) :
    resolve_font env = (Font.default, [FontMsg.warnNoFont]) ∧
    ∀ filename text tc bg,
      ((create_piece_image env filename text tc bg (resolve_font env).1).2).size =
        (128, 128) := by
  constructor
  · unfold resolve_font
    rw [firstExisting_all_false env.pathExists font_paths h]
  · intro filename text tc bg
    exact create_piece_image_scaled_size env 4 filename text tc bg _

/-- C2 witness: a concrete environment in which no candidate path
exists. -/
theorem C2_default_font_fallback_witness :
    (∀ p ∈ font_paths, envNoPaths.pathExists p = false) ∧
    (resolve_font envNoPaths = (Font.default, [FontMsg.warnNoFont]) ∧
      ∀ filename text tc bg,
        ((create_piece_image envNoPaths filename text tc bg
            (resolve_font envNoPaths).1).2).size = (128, 128)) :=
  ⟨fun _ _ => rfl, C2_default_font_fallback envNoPaths (fun _ _ => rfl)⟩

/-- C3: the image the piece renderer produces and saves is exactly
128x128, for every environment, glyph, colors, font, filename, every
supersampling factor, and in particular for the hard-coded factor 4. -/
theorem C3_target_size (env : Env) (sf : Nat)
    (filename text tc bg : String) (font : Font) :
    ((create_piece_image_scaled env sf filename text tc bg font).2).size = (128, 128) ∧
    ((create_piece_image env filename text tc bg font).2).size = (128, 128) :=
  ⟨rfl, rfl⟩

/-- C4: evaluation at the failing input.  A call to `create_board_image`
returns at no recursion depth (shown at depth 1000000); at depth 2 its
write trace already contains the board image twice — not "a single"
board image — and the trace at every depth consists of board-image
writes only, so the single 1x1 pixel image is never produced,
contradicting the claim. -/
theorem C4_board_generator_diverges :
    create_board_image 1000000 = none ∧
    create_board_image_trace 2 =
      [("assets/textures/board.png", board_img),
       ("assets/textures/board.png", board_img)] ∧
    ∀ fuel, (create_board_image_trace fuel).map Prod.fst =
      List.replicate fuel "assets/textures/board.png" :=
  ⟨create_board_image_eq_none 1000000, rfl, create_board_image_trace_names⟩

/-- C5: font resolution binds the first candidate path that exists, at
point size 280; a path later in the list is used only when every earlier
one does not exist.  (`hload` is the non-exceptional case in which
`ImageFont.truetype` succeeds on the chosen file.) -/
theorem C5_first_existing_path (env : Env) (pre : List String) (p : String)
    (post : List String)
    (hsplit : font_paths = pre ++ p :: post)
    (hpre : ∀ q ∈ pre, env.pathExists q = false)
    (hp : env.pathExists p = true)
    (hload : env.truetypeLoads p 280 = true) :
    resolve_font env = (Font.truetype p 280, [FontMsg.usingFont p]) := by
  unfold resolve_font
  rw [hsplit, firstExisting_append env.pathExists pre p post hpre hp]
  simp [hload]

/-- C5 witness: in an environment in which exactly the second candidate
path exists, resolution skips the first path and binds the second at
point size 280. -/
theorem C5_first_existing_path_witness :
    (font_paths =
        ["/usr/share/fonts/google-droid-sans-fonts/DroidSansFallbackFull.ttf"] ++
          "/usr/share/fonts/truetype/arphic/uming.ttc" ::
            ["/usr/share/fonts/opentype/noto/NotoSansCJK-Regular.ttc",
             "/usr/share/fonts/noto-cjk/NotoSansCJK-Regular.ttc",
             "DroidSansFallbackFull.ttf"] ∧
      (∀ q ∈ ["/usr/share/fonts/google-droid-sans-fonts/DroidSansFallbackFull.ttf"],
        envOnlySecond.pathExists q = false) ∧
      envOnlySecond.pathExists "/usr/share/fonts/truetype/arphic/uming.ttc" = true ∧
      envOnlySecond.truetypeLoads "/usr/share/fonts/truetype/arphic/uming.ttc" 280 = true) ∧
    resolve_font envOnlySecond =
      (Font.truetype "/usr/share/fonts/truetype/arphic/uming.ttc" 280,
       [FontMsg.usingFont "/usr/share/fonts/truetype/arphic/uming.ttc"]) :=
  ⟨⟨rfl, by decide, by decide, rfl⟩,
   C5_first_existing_path envOnlySecond
     ["/usr/share/fonts/google-droid-sans-fonts/DroidSansFallbackFull.ttf"]
     "/usr/share/fonts/truetype/arphic/uming.ttc"
     ["/usr/share/fonts/opentype/noto/NotoSansCJK-Regular.ttc",
      "/usr/share/fonts/noto-cjk/NotoSansCJK-Regular.ttc",
      "DroidSansFallbackFull.ttf"]
     rfl (by decide) (by decide) rfl⟩

/-- C6: the glyph draw offset recorded by the renderer is
`(canvasSize − glyphWidth) / 2` horizontally and
`(canvasSize − glyphHeight) / 2 − glyphHeight / 10` vertically —
bounding-box centering, shifted upward by 10% of the bounding-box
height — where the bounding box is measured with the resolved font at
the working resolution `128 × scaleFactor`. -/
theorem C6_glyph_offset (env : Env) (sf : Nat)
    (filename text tc bg : String) (font : Font) :
    ((create_piece_image_scaled env sf filename text tc bg font).2).opList[1]? =
      some (DrawOp.text
        ((((128 * sf : Nat) : ℚ) -
            (((env.textbbox text font).right - (env.textbbox text font).left : ℤ) : ℚ)) / 2)
        (((((128 * sf : Nat) : ℚ) -
            (((env.textbbox text font).bottom - (env.textbbox text font).top : ℤ) : ℚ)) / 2) -
          (((env.textbbox text font).bottom - (env.textbbox text font).top : ℤ) : ℚ) * (1 / 10))
        text font tc) := rfl

/-- C7: the working canvas is a 512x512 (4 x 128) square with a fully
transparent background, and the first drawing operation on it is the
inscribed circle, inset by the scaled border margin 16 = 4 x 4 from
each edge, filled with the background color and outlined with the text
color at the scaled stroke width 16. -/
theorem C7_canvas_and_circle (env : Env)
    (filename text tc bg : String) (font : Font) :
    ((create_piece_image env filename text tc bg font).2).canvas =
      Img.new 512 512 ⟨0, 0, 0, 0⟩ ∧
    ((create_piece_image env filename text tc bg font).2).opList[0]? =
      some (DrawOp.ellipse 16 16 (512 - 16) (512 - 16) bg tc 16) :=
  ⟨rfl, rfl⟩

/-- C8: a run is a deterministic function of the font-resolution outcome
and of the text-measuring behaviour: two runs whose environments resolve
the font identically and measure text identically write the same file
names with identical image content, so a second run in an unchanged
environment overwrites every output file with byte-equivalent content. -/
theorem C8_idempotent (env1 env2 : Env)
    (hfont : resolve_font env1 = resolve_font env2)
    (hbbox : env1.textbbox = env2.textbbox) :
    run_script env1 = run_script env2 := by
  unfold run_script
  rw [hfont]
  exact congrArg (fun g => pieces_map.flatMap g)
    (funext fun pc => by
      rw [create_piece_image_congr env1 env2 hbbox,
        create_piece_image_congr env1 env2 hbbox])

/-- C8 witness: two (identical) runs in a concrete environment produce
the same writes. -/
theorem C8_idempotent_witness :
    (resolve_font envNoPaths = resolve_font envNoPaths ∧
      envNoPaths.textbbox = envNoPaths.textbbox) ∧
    run_script envNoPaths = run_script envNoPaths :=
  ⟨⟨rfl, rfl⟩, C8_idempotent envNoPaths envNoPaths rfl rfl⟩

/-- C9: `create_board_image` never returns — no finite recursion depth
lets the call complete, since it unconditionally calls itself after
saving the board image — and every write it performs before diverging is
a write of the board image, so the pixel-image statements after the
self-call are unreachable in every execution. -/
theorem C9_nontermination :
    (∀ fuel, create_board_image fuel = none) ∧
    (∀ fuel, (create_board_image_trace fuel).map Prod.fst =
      List.replicate fuel "assets/textures/board.png") :=
  ⟨create_board_image_eq_none, create_board_image_trace_names⟩

/-- C10: the image content saved by the piece renderer does not depend
on the filename argument: two calls that differ only in filename produce
identical image data. -/
theorem C10_filename_independent (env : Env)
    (f1 f2 text tc bg : String) (font : Font) :
    (create_piece_image env f1 text tc bg font).2 =
      (create_piece_image env f2 text tc bg font).2 := rfl

end GenerateAssets
